import Mathlib

/-!
Shallow embedding of the minidb key-value store (src/main.rs): an in-memory
table backed by an append-only replay log on disk and a full-state snapshot,
together with its recovery (restore + replay) logic.

The filesystem visible to the store is one directory holding two files,
`replay.log` and `db.snapshot`.  File contents are modelled at the framing
level of the bincode codec: the log is a sequence of framed entries, each of
which either decodes to a `(String, LanguageInfo)` pair or fails to decode
(for example the truncated tail of a partial write); the snapshot either
deserializes to a full `Db` or fails to deserialize.  `bincode` round-trips
values exactly, so a successfully decoded entry is the pair that was
serialized into it.
-/

set_option autoImplicit false

/-- Classification tag stored with each entry (enum Typing). -/
inductive Typing where
  | Dynamic
  | Static
deriving DecidableEq, Repr

/-- Value type stored in the database (struct LanguageInfo).  `year` is a
`u16` in the source; no arithmetic is ever performed on it, so it is
modelled as `Nat`. -/
structure LanguageInfo where
  creator : String
  year : Nat
  typing : Typing
deriving DecidableEq, Repr

/-- Last-write-wins insertion into an association list: the deterministic
model of `HashMap::insert`, which overwrites the value of an existing key
and otherwise adds a fresh binding. -/
def insertEntry : List (String × LanguageInfo) → String → LanguageInfo →
    List (String × LanguageInfo)
  | [], k, v => [(k, v)]
  | (k', v') :: t, k, v =>
      if k' = k then (k, v) :: t else (k', v') :: insertEntry t k v

/-- First value bound to a key, the model of `HashMap::get`. -/
def lookupEntry : List (String × LanguageInfo) → String → Option LanguageInfo
  | [], _ => none
  | (k', v') :: t, k => if k' = k then some v' else lookupEntry t k

/-- In-memory table of the store: a deterministic association-list model of
`HashMap<String, LanguageInfo>` (unique keys, last-write-wins). -/
structure Table where
  entries : List (String × LanguageInfo)
deriving DecidableEq, Repr

/-- Empty table (`HashMap::with_capacity(1024)` holds no entries). -/
def Table.empty : Table := ⟨[]⟩

/-- Model of `HashMap::insert` on the table. -/
def Table.insert (t : Table) (k : String) (v : LanguageInfo) : Table :=
  ⟨insertEntry t.entries k v⟩

/-- Model of `HashMap::get` on the table. -/
def Table.get (t : Table) (k : String) : Option LanguageInfo :=
  lookupEntry t.entries k

/-- Replay of a list of writes directly against a table in memory. -/
def Table.applyList (t : Table) : List (String × LanguageInfo) → Table
  | [] => t
  | (k, v) :: rest => Table.applyList (t.insert k v) rest

/-- The store (struct Db): directory and file paths, in-memory table, and
the flag controlling whether `add` also appends to the replay log. -/
structure Db where
  dir : String
  replay_log : String
  db_snapshot : String
  data : Table
  enable_logging : Bool
deriving DecidableEq, Repr

/-- One framed entry of `replay.log` as seen by the bincode decoder: either
an entry that decodes to a `(key, value)` pair, or bytes on which decoding
fails (a truncated or garbled record). -/
inductive LogEntry where
  | record (key : String) (value : LanguageInfo)
  | corrupt
deriving DecidableEq, Repr

/-- The log entry serialized from a `(key, value)` pair. -/
def toRecord (p : String × LanguageInfo) : LogEntry :=
  LogEntry.record p.1 p.2

/-- Contents of `db.snapshot` as seen by the bincode decoder: either a blob
that deserializes to a full `Db`, or bytes on which deserialization fails. -/
inductive SnapFile where
  | good (db : Db)
  | corrupt
deriving DecidableEq, Repr

/-- On-disk state of the store directory: whether the directory exists, the
replay log file (`none` means the file is absent), and the snapshot file. -/
structure FS where
  dirExists : Bool
  log : Option (List LogEntry)
  snap : Option SnapFile
deriving DecidableEq, Repr

/-- Errors surfaced by the recovery path through `Result` (`Box<Error>`). -/
inductive DbErr where
  | snapDecode
  | logOpen
deriving DecidableEq, Repr

def REPLAY_LOG : String := "replay.log"

def DB_SNAPSHOT : String := "db.snapshot"

/-- Model of `PathBuf::join`. -/
def pathJoin (dir file : String) : String := dir ++ "/" ++ file

/-- Embedding of `Db::new`: an empty store bound to `dir`, with logging
enabled. -/
def Db.new (dir : String) : Db :=
  { dir := dir
    replay_log := pathJoin dir REPLAY_LOG
    db_snapshot := pathJoin dir DB_SNAPSHOT
    data := Table.empty
    enable_logging := true }

/-- Embedding of `Db::is_db_dir`: the directory exists and contains a
replay log file. -/
def Db.is_db_dir (fs : FS) : Bool :=
  fs.dirExists && fs.log.isSome

/-- Embedding of `Db::add`: when logging is enabled, open the replay log in
create-or-append mode (creating the file when absent; the open is modelled
as succeeding) and append the serialized pair, then unconditionally insert
the pair into the in-memory table. -/
def Db.add (db : Db) (fs : FS) (key : String) (value : LanguageInfo) :
    Db × FS :=
  let fs' :=
    if db.enable_logging then
      { fs with log := some (fs.log.getD [] ++ [LogEntry.record key value]) }
    else fs
  ({ db with data := db.data.insert key value }, fs')

/-- Embedding of `Db::get`: pure in-memory lookup. -/
def Db.get (db : Db) (key : String) : Option LanguageInfo :=
  db.data.get key

/-- Embedding of `Db::len`. -/
def Db.len (db : Db) : Nat :=
  db.data.entries.length

/-- Embedding of `Db::save` on the fault-free path: `File::create` truncates
the snapshot file and the serialized `Db` is written into it, then
`File::create` truncates the replay log to empty. -/
def Db.save (db : Db) (fs : FS) : FS :=
  { fs with snap := some (SnapFile.good db), log := some [] }

/-- Fault selectors for the three I/O steps inside `Db::save`. -/
structure SaveFaults where
  snapCreateFail : Bool
  serializeFail : Bool
  logCreateFail : Bool
deriving DecidableEq, Repr

/-- Embedding of `Db::save` with injected I/O faults, following the source
line by line: `File::create(&self.db_snapshot).unwrap()` panics when
creation fails (modelled as `none`: no normal return); a serialization
failure is discarded with `let _ = ...`, leaving the just-truncated snapshot
file undecodable; the result of `File::create(&self.replay_log)` is
discarded with `let _ = ...`, so a failure there leaves the log file
untruncated. -/
def Db.save_f (faults : SaveFaults) (db : Db) (fs : FS) : Option FS :=
  if faults.snapCreateFail then
    none
  else
    let fs1 := { fs with
      snap := some (if faults.serializeFail then SnapFile.corrupt
                    else SnapFile.good db) }
    some (if faults.logCreateFail then fs1 else { fs1 with log := some [] })

/-- Loop of `Db::replay`: decode entries in order, applying each decoded
record through `add` (the caller has disabled logging); the first decode
failure breaks the loop and discards everything after it. -/
def replayLoop (db : Db) (fs : FS) : List LogEntry → Db × FS
  | [] => (db, fs)
  | LogEntry.corrupt :: _ => (db, fs)
  | LogEntry.record k v :: rest =>
      let p := db.add fs k v
      replayLoop p.1 p.2 rest

/-- Embedding of `Db::replay`: save and clear the logging flag, open the
replay log (an absent file is an error propagated with `?`), decode and
apply records until end of file or the first decode failure, then restore
the previous logging flag. -/
def Db.replay (db : Db) (fs : FS) : Except DbErr (Db × FS) :=
  let prev := db.enable_logging
  let db1 := { db with enable_logging := false }
  match fs.log with
  | none => Except.error DbErr.logOpen
  | some entries =>
      let p := replayLoop db1 fs entries
      Except.ok ({ p.1 with enable_logging := prev }, p.2)

/-- Embedding of `Db::restore_and_replay`: when a snapshot file exists,
deserialize the full `Db` from it (failure propagated with `?`), otherwise
start from `Db::new`; then replay the log. -/
def Db.restore_and_replay (dir : String) (fs : FS) :
    Except DbErr (Db × FS) :=
  match fs.snap with
  | some SnapFile.corrupt => Except.error DbErr.snapDecode
  | some (SnapFile.good db) => db.replay fs
  | none => (Db.new dir).replay fs

/-- Embedding of `Db::create`: `create_dir_all` (recursive, idempotent if
the directory already exists), then an empty store bound to the directory;
no log or snapshot file is created. -/
def Db.create (dir : String) (fs : FS) : Db × FS :=
  (Db.new dir, { fs with dirExists := true })

/-- Embedding of `Db::load_or_new`: recover when `dir` looks like a store
directory, otherwise create an empty store. -/
def Db.load_or_new (dir : String) (fs : FS) : Except DbErr (Db × FS) :=
  if Db.is_db_dir fs then
    Db.restore_and_replay dir fs
  else
    Except.ok (Db.create dir fs)

/-- Apply a sequence of `add` calls to a store, threading the filesystem. -/
def applyAdds : Db → FS → List (String × LanguageInfo) → Db × FS
  | db, fs, [] => (db, fs)
  | db, fs, (k, v) :: rest =>
      let p := db.add fs k v
      applyAdds p.1 p.2 rest

/-- Embedding of a `db.save()` statement inside a caller: `save` takes
`&self`, so the continuation keeps the very same `Db` while only the
filesystem is updated. -/
def Db.saveStep (s : Db × FS) : Db × FS :=
  (s.1, Db.save s.1 s.2)

/-- Round-trip scenario of claim C1: `load_or_new` on a directory, a
sequence of `add` calls, then a fresh `load_or_new` on the same directory;
returns the recovered store. -/
def roundtripScenario (dir : String) (fs : FS)
    (ops : List (String × LanguageInfo)) : Except DbErr Db :=
  match Db.load_or_new dir fs with
  | Except.error e => Except.error e
  | Except.ok (db0, fs0) =>
      let p := applyAdds db0 fs0 ops
      match Db.load_or_new dir p.2 with
      | Except.error e => Except.error e
      | Except.ok (db', _) => Except.ok db'

/-- Compaction scenario of claim C2: `load_or_new`, `add(k1,v1)`,
`add(k2,v2)`, `save()`, `add(k3,v3)`, then a fresh `load_or_new`; returns
the filesystem state right after `save` together with the recovered
store. -/
def compactionScenario (dir : String) (fs : FS)
    (k1 : String) (v1 : LanguageInfo) (k2 : String) (v2 : LanguageInfo)
    (k3 : String) (v3 : LanguageInfo) : Option (FS × Db) :=
  match Db.load_or_new dir fs with
  | Except.error _ => none
  | Except.ok (db0, fs0) =>
      let p1 := db0.add fs0 k1 v1
      let p2 := p1.1.add p1.2 k2 v2
      let fsS := p2.1.save p2.2
      let p3 := p2.1.add fsS k3 v3
      match Db.load_or_new dir p3.2 with
      | Except.error _ => none
      | Except.ok (db', _) => some (fsS, db')

/-- Last-write-wins scenario of claim C3: `load_or_new`, `add(k,v1)`,
`add(k,v2)`, then a fresh `load_or_new`; returns the in-memory store after
the two adds, the log file contents at that point, and the recovered
store. -/
def lwwScenario (dir : String) (fs : FS) (k : String)
    (v1 v2 : LanguageInfo) : Option (Db × List LogEntry × Db) :=
  match Db.load_or_new dir fs with
  | Except.error _ => none
  | Except.ok (db0, fs0) =>
      let p1 := db0.add fs0 k v1
      let p2 := p1.1.add p1.2 k v2
      match p2.2.log, Db.load_or_new dir p2.2 with
      | some entries, Except.ok (db', _) => some (p2.1, entries, db')
      | _, _ => none

/-! Helper lemmas about the embedded operations. -/

theorem add_fst (db : Db) (fs : FS) (k : String) (v : LanguageInfo) :
    (db.add fs k v).1 = { db with data := db.data.insert k v } := rfl

theorem add_snd_logging (db : Db) (fs : FS) (k : String) (v : LanguageInfo)
    (h : db.enable_logging = true) :
    (db.add fs k v).2 =
      { fs with log := some (fs.log.getD [] ++ [LogEntry.record k v]) } := by
  simp [Db.add, h]

theorem add_snd_no_logging (db : Db) (fs : FS) (k : String)
    (v : LanguageInfo) (h : db.enable_logging = false) :
    (db.add fs k v).2 = fs := by
  simp [Db.add, h]

theorem applyAdds_fst (ops : List (String × LanguageInfo)) :
    ∀ (db : Db) (fs : FS),
      (applyAdds db fs ops).1 = { db with data := db.data.applyList ops } := by
  induction ops with
  | nil => intro db fs; rfl
  | cons hd tl ih =>
      obtain ⟨k, v⟩ := hd
      intro db fs
      simp [applyAdds, Db.add, Table.applyList, ih]

theorem applyAdds_snd (ops : List (String × LanguageInfo)) :
    ∀ (db : Db) (fs : FS) (l : List LogEntry),
      db.enable_logging = true → fs.log = some l →
      (applyAdds db fs ops).2 =
        { fs with log := some (l ++ ops.map toRecord) } := by
  induction ops with
  | nil =>
      intro db fs l _ hl
      obtain ⟨d, lg, sn⟩ := fs
      simp at hl
      simp [applyAdds, hl]
  | cons hd tl ih =>
      obtain ⟨k, v⟩ := hd
      intro db fs l hlog hl
      have h2 : (db.add fs k v).2 =
          { fs with log := some (l ++ [LogEntry.record k v]) } := by
        rw [add_snd_logging db fs k v hlog, hl]
        rfl
      have h1 : (db.add fs k v).1.enable_logging = true := hlog
      simp only [applyAdds]
      rw [ih (db.add fs k v).1 (db.add fs k v).2 (l ++ [LogEntry.record k v])
        h1 (by rw [h2])]
      rw [h2]
      simp [toRecord]

theorem replayLoop_records (ops : List (String × LanguageInfo)) :
    ∀ (db : Db) (fs : FS), db.enable_logging = false →
      replayLoop db fs (ops.map toRecord) =
        ({ db with data := db.data.applyList ops }, fs) := by
  induction ops with
  | nil => intro db fs _; rfl
  | cons hd tl ih =>
      obtain ⟨k, v⟩ := hd
      intro db fs hlog
      simp only [List.map, toRecord, replayLoop]
      rw [add_snd_no_logging db fs k v hlog, add_fst]
      rw [ih { db with data := db.data.insert k v } fs hlog]
      rfl

theorem replayLoop_corrupt (ops : List (String × LanguageInfo)) :
    ∀ (db : Db) (fs : FS) (junk : List LogEntry), db.enable_logging = false →
      replayLoop db fs (ops.map toRecord ++ LogEntry.corrupt :: junk) =
        ({ db with data := db.data.applyList ops }, fs) := by
  induction ops with
  | nil => intro db fs junk _; rfl
  | cons hd tl ih =>
      obtain ⟨k, v⟩ := hd
      intro db fs junk hlog
      simp only [List.map, toRecord, List.cons_append, replayLoop]
      rw [add_snd_no_logging db fs k v hlog, add_fst]
      simp only [List.append_eq]
      rw [ih { db with data := db.data.insert k v } fs junk hlog]
      rfl

theorem replay_records (db : Db) (fs : FS)
    (ops : List (String × LanguageInfo))
    (hl : fs.log = some (ops.map toRecord)) :
    db.replay fs =
      Except.ok ({ db with data := db.data.applyList ops }, fs) := by
  simp only [Db.replay, hl]
  rw [replayLoop_records ops { db with enable_logging := false } fs rfl]

theorem load_or_new_not_db (dir : String) (fs : FS)
    (h : Db.is_db_dir fs = false) :
    Db.load_or_new dir fs =
      Except.ok (Db.new dir, { fs with dirExists := true }) := by
  simp [Db.load_or_new, h, Db.create]

/-! Sample concrete values used by witnesses and counterexamples. -/

/-- Sample value: the C entry from the demo in main. -/
def cInfo : LanguageInfo :=
  { creator := "Dennis Ritchie", year := 1972, typing := Typing.Static }

/-- Sample value: the Python entry from the demo in main. -/
def pyInfo : LanguageInfo :=
  { creator := "Guido van Rossum", year := 1989, typing := Typing.Dynamic }

/-- Sample value: the Go entry from the demo in main. -/
def goInfo : LanguageInfo :=
  { creator := "Rob Pike", year := 2009, typing := Typing.Static }

/-- A directory that exists on no filesystem yet. -/
def freshFS : FS := { dirExists := false, log := none, snap := none }

/-! Claim theorems. -/

/-- C4: `load_or_new` on a directory that does not exist, or that exists
but contains no log file, succeeds with an empty table; the directory is
brought into existence (idempotently) and no snapshot or log file is
required or created. -/
theorem C4_fresh_directory (dir : String) (fs : FS)
    (h : fs.dirExists = false ∨ fs.log = none) :
    Db.load_or_new dir fs =
        Except.ok (Db.new dir, { fs with dirExists := true }) ∧
      (Db.new dir).data = Table.empty := by
  refine ⟨?_, rfl⟩
  apply load_or_new_not_db
  rcases h with h | h <;> simp [Db.is_db_dir, h]

/-- C4 witness at a nonexistent directory. -/
theorem C4_fresh_directory_witness :
    Db.load_or_new "/tmp/minidb" freshFS =
        Except.ok (Db.new "/tmp/minidb",
          { freshFS with dirExists := true }) ∧
      (Db.new "/tmp/minidb").data = Table.empty :=
  C4_fresh_directory "/tmp/minidb" freshFS (Or.inl rfl)

/-- C5: a decode failure during replay is not fatal: on a log made of fully
written records followed by a truncated or corrupt tail (and anything after
it) or by end of file, `replay` returns success, having applied exactly the
fully written records in order; the filesystem is untouched. -/
theorem C5_tail_tolerance (db : Db) (fs : FS)
    (ops : List (String × LanguageInfo)) (rest : List LogEntry)
    (hrest : rest = [] ∨ ∃ junk, rest = LogEntry.corrupt :: junk)
    (hl : fs.log = some (ops.map toRecord ++ rest)) :
    db.replay fs =
      Except.ok ({ db with data := db.data.applyList ops }, fs) := by
  rcases hrest with h | ⟨junk, h⟩
  · subst h
    rw [List.append_nil] at hl
    exact replay_records db fs ops hl
  · subst h
    simp only [Db.replay, hl]
    rw [replayLoop_corrupt ops { db with enable_logging := false } fs junk
      rfl]

/-- C5 witness: a log holding one complete record and a truncated tail
recovers the complete record and succeeds. -/
theorem C5_tail_tolerance_witness :
    Db.replay (Db.new "d")
        { dirExists := true,
          log := some [LogEntry.record "C" cInfo, LogEntry.corrupt],
          snap := none } =
      Except.ok
        ({ Db.new "d" with
            data := Table.empty.applyList [("C", cInfo)] },
          { dirExists := true,
            log := some [LogEntry.record "C" cInfo, LogEntry.corrupt],
            snap := none }) :=
  C5_tail_tolerance (Db.new "d") _ [("C", cInfo)] [LogEntry.corrupt]
    (Or.inr ⟨[], rfl⟩) rfl

/-- C6: when the directory is a store directory and the snapshot file is
present but fails to deserialize, `load_or_new` returns the error to the
caller as a recoverable error value, so no store is produced. -/
theorem C6_corrupt_snapshot (dir : String) (fs : FS)
    (hdir : fs.dirExists = true) (hlog : fs.log.isSome = true)
    (hsnap : fs.snap = some SnapFile.corrupt) :
    Db.load_or_new dir fs = Except.error DbErr.snapDecode := by
  simp [Db.load_or_new, Db.is_db_dir, hdir, hlog, Db.restore_and_replay,
    hsnap]

/-- C6 witness at a directory holding an empty log and a corrupt
snapshot. -/
theorem C6_corrupt_snapshot_witness :
    Db.load_or_new "/tmp/minidb"
        { dirExists := true, log := some [],
          snap := some SnapFile.corrupt } =
      Except.error DbErr.snapDecode :=
  C6_corrupt_snapshot "/tmp/minidb" _ rfl rfl rfl

/-- C8: when `enable_logging` is false, `add` inserts into the in-memory
table only and leaves the whole filesystem, in particular the log file,
untouched. -/
theorem C8_no_logging_frame (db : Db) (fs : FS) (k : String)
    (v : LanguageInfo) (h : db.enable_logging = false) :
    (db.add fs k v).2 = fs ∧
      (db.add fs k v).1 = { db with data := db.data.insert k v } :=
  ⟨add_snd_no_logging db fs k v h, rfl⟩

/-- C8 witness on a store with logging disabled. -/
theorem C8_no_logging_frame_witness :
    (Db.add { Db.new "d" with enable_logging := false } freshFS "C"
          cInfo).2 = freshFS ∧
      (Db.add { Db.new "d" with enable_logging := false } freshFS "C"
          cInfo).1 =
        { { Db.new "d" with enable_logging := false } with
            data := ({ Db.new "d" with
              enable_logging := false } : Db).data.insert "C" cInfo } :=
  C8_no_logging_frame { Db.new "d" with enable_logging := false } freshFS
    "C" cInfo rfl

/-- C9: two consecutive `save` calls with no intervening `add` produce a
directory from which a fresh `load_or_new` recovers exactly the store state
that existed before either `save`. -/
theorem C9_save_idempotent (dir : String) (db : Db) (fs : FS)
    (h : fs.dirExists = true) :
    Db.load_or_new dir (Db.save db (Db.save db fs)) =
      Except.ok (db, Db.save db (Db.save db fs)) := by
  simp only [Db.save, Db.load_or_new, Db.is_db_dir, h, Option.isSome_some,
    Bool.and_self, if_true, Db.restore_and_replay, Db.replay, replayLoop]

/-- C9 witness with a one-entry store. -/
theorem C9_save_idempotent_witness :
    Db.load_or_new "/tmp/minidb"
        (Db.save { Db.new "/tmp/minidb" with
            data := Table.empty.insert "C" cInfo }
          (Db.save { Db.new "/tmp/minidb" with
              data := Table.empty.insert "C" cInfo }
            { dirExists := true, log := some [], snap := none })) =
      Except.ok ({ Db.new "/tmp/minidb" with
          data := Table.empty.insert "C" cInfo },
        Db.save { Db.new "/tmp/minidb" with
            data := Table.empty.insert "C" cInfo }
          (Db.save { Db.new "/tmp/minidb" with
              data := Table.empty.insert "C" cInfo }
            { dirExists := true, log := some [], snap := none })) :=
  C9_save_idempotent "/tmp/minidb" _ _ rfl

/-- C10: `save` takes the store by immutable reference and writes only to
disk: after a `save` statement the caller's store has the same table,
directory, file paths and logging flag as before the call. -/
theorem C10_save_preserves_store (db : Db) (fs : FS) :
    (Db.saveStep (db, fs)).1.data = db.data ∧
      (Db.saveStep (db, fs)).1.dir = db.dir ∧
      (Db.saveStep (db, fs)).1.replay_log = db.replay_log ∧
      (Db.saveStep (db, fs)).1.db_snapshot = db.db_snapshot ∧
      (Db.saveStep (db, fs)).1.enable_logging = db.enable_logging :=
  ⟨rfl, rfl, rfl, rfl, rfl⟩

/-- C7 counterexample: at a concrete store and filesystem, a snapshot-file
creation error makes `save` panic through `unwrap` instead of returning
normally, refuting the claim that save returns normally regardless of any
snapshot-file error. -/
theorem C7_counterexample :
    Db.save_f
        { snapCreateFail := true, serializeFail := false,
          logCreateFail := false }
        (Db.new "/tmp/minidb")
        { dirExists := true, log := some [], snap := none } = none := rfl

/-- C7 amended: provided creating the snapshot file succeeds, `save`
returns normally whatever happens to serialization or to the log
truncation — those errors are discarded and never reach the caller; but a
snapshot-file creation failure is unwrapped and aborts instead of
returning. -/
theorem C7_save_swallows_errors (ser trunc : Bool) (db : Db) (fs : FS) :
    (Db.save_f
        { snapCreateFail := false, serializeFail := ser,
          logCreateFail := trunc } db fs).isSome = true := by
  simp [Db.save_f]

/-- C3: after `add(k, v1); add(k, v2)` on a store freshly created by
`load_or_new`, the in-memory table maps `k` to `v2`; the log file holds
exactly the two records for `k` in insertion order; and a fresh
`load_or_new` on the same directory recovers `get k = some v2`. -/
theorem C3_last_write_wins (dir : String) (fs : FS) (k : String)
    (v1 v2 : LanguageInfo) (hlog : fs.log = none) (hsnap : fs.snap = none) :
    ∃ dbm db' : Db,
      lwwScenario dir fs k v1 v2 =
          some (dbm, [LogEntry.record k v1, LogEntry.record k v2], db') ∧
        dbm.get k = some v2 ∧ db'.get k = some v2 := by
  obtain ⟨d, lg, sn⟩ := fs
  simp only at hlog hsnap
  subst hlog; subst hsnap
  refine ⟨{ Db.new dir with data := ⟨[(k, v2)]⟩ },
    { Db.new dir with data := ⟨[(k, v2)]⟩ }, ?_, ?_, ?_⟩ <;>
    simp [lwwScenario, Db.load_or_new, Db.is_db_dir, Db.create, Db.add,
      Db.new, Db.restore_and_replay, Db.replay, replayLoop, Table.insert,
      Table.empty, insertEntry, Db.get, Table.get, lookupEntry]

/-- C3 witness at key X with two concrete values. -/
theorem C3_last_write_wins_witness :
    ∃ dbm db' : Db,
      lwwScenario "/tmp/minidb" freshFS "X" cInfo pyInfo =
          some (dbm,
            [LogEntry.record "X" cInfo, LogEntry.record "X" pyInfo], db') ∧
        dbm.get "X" = some pyInfo ∧ db'.get "X" = some pyInfo :=
  C3_last_write_wins "/tmp/minidb" freshFS "X" cInfo pyInfo rfl rfl

/-- C2: after `add(k1,v1); add(k2,v2); save(); add(k3,v3)` on a store
freshly created by `load_or_new` (with pairwise distinct keys), the log
file immediately after `save` is empty, and a fresh `load_or_new` recovers
a table holding exactly the three entries. -/
theorem C2_compaction (dir : String) (fs : FS)
    (k1 : String) (v1 : LanguageInfo) (k2 : String) (v2 : LanguageInfo)
    (k3 : String) (v3 : LanguageInfo)
    (hlog : fs.log = none) (hsnap : fs.snap = none)
    (h12 : k1 ≠ k2) (h13 : k1 ≠ k3) (h23 : k2 ≠ k3) :
    ∃ (fsS : FS) (db' : Db),
      compactionScenario dir fs k1 v1 k2 v2 k3 v3 = some (fsS, db') ∧
        fsS.log = some [] ∧
        db'.data.entries = [(k1, v1), (k2, v2), (k3, v3)] := by
  obtain ⟨d, lg, sn⟩ := fs
  simp only at hlog hsnap
  subst hlog; subst hsnap
  refine ⟨{ dirExists := true, log := some [], snap := some (SnapFile.good { Db.new dir with data := ⟨[(k1, v1), (k2, v2)]⟩ }) }, { Db.new dir with data := ⟨[(k1, v1), (k2, v2), (k3, v3)]⟩ }, ?_, rfl, rfl⟩
  simp [compactionScenario, Db.load_or_new, Db.is_db_dir, Db.create,
    Db.add, Db.new, Db.save, Db.restore_and_replay, Db.replay, replayLoop,
    Table.insert, Table.empty, insertEntry, h12, h13, h23]

/-- C2 witness at keys A, B, C with concrete values. -/
theorem C2_compaction_witness :
    ∃ (fsS : FS) (db' : Db),
      compactionScenario "/tmp/minidb" freshFS "A" cInfo "B" pyInfo "C"
          goInfo = some (fsS, db') ∧
        fsS.log = some [] ∧
        db'.data.entries =
          [("A", cInfo), ("B", pyInfo), ("C", goInfo)] :=
  C2_compaction "/tmp/minidb" freshFS "A" cInfo "B" pyInfo "C" goInfo rfl
    rfl (by decide) (by decide) (by decide)

/-- C1: round-trip: starting from a fresh directory (no log file, no
snapshot file), `load_or_new` followed by any sequence of `add` calls and a
fresh `load_or_new` on the same directory recovers exactly the store whose
table is the sequence of writes applied in order to an empty table. -/
theorem C1_round_trip (dir : String) (fs : FS)
    (ops : List (String × LanguageInfo))
    (hlog : fs.log = none) (hsnap : fs.snap = none) :
    roundtripScenario dir fs ops =
      Except.ok { Db.new dir with data := Table.empty.applyList ops } := by
  obtain ⟨d, lg, sn⟩ := fs
  simp only at hlog hsnap
  subst hlog; subst hsnap
  have h0 : Db.is_db_dir ⟨d, none, none⟩ = false := by
    simp [Db.is_db_dir]
  simp only [roundtripScenario, load_or_new_not_db dir _ h0]
  cases ops with
  | nil =>
      have h1 : Db.is_db_dir ⟨true, none, none⟩ = false := by
        simp [Db.is_db_dir]
      simp only [applyAdds, load_or_new_not_db dir _ h1]
      rfl
  | cons hd tl =>
      obtain ⟨k, v⟩ := hd
      have hadd : (Db.new dir).add ⟨true, none, none⟩ k v =
          ({ Db.new dir with data := Table.empty.insert k v },
            ⟨true, some [LogEntry.record k v], none⟩) := rfl
      have hsnd :
          (applyAdds { Db.new dir with data := Table.empty.insert k v }
              ⟨true, some [LogEntry.record k v], none⟩ tl).2 =
            ⟨true, some (LogEntry.record k v :: tl.map toRecord), none⟩ := by
        rw [applyAdds_snd tl _ _ [LogEntry.record k v] rfl rfl]
        rfl
      have hrep := replay_records (Db.new dir)
        ⟨true, some (LogEntry.record k v :: tl.map toRecord), none⟩
        ((k, v) :: tl) rfl
      simp only [applyAdds, hadd, hsnd, Db.load_or_new, Db.is_db_dir,
        Db.restore_and_replay, hrep, Option.isSome_some, Bool.and_self,
        Bool.true_and, if_true]
      rfl

/-- C1 witness with the two demo entries from main. -/
theorem C1_round_trip_witness :
    roundtripScenario "/tmp/minidb" freshFS
        [("C", cInfo), ("Python", pyInfo)] =
      Except.ok { Db.new "/tmp/minidb" with
        data := Table.empty.applyList [("C", cInfo), ("Python", pyInfo)] } :=
  C1_round_trip "/tmp/minidb" freshFS [("C", cInfo), ("Python", pyInfo)]
    rfl rfl
